import Mathlib

/-!
Verification of the kpi-backend repository against its specification.

The development shallowly embeds the three source files:

* `database.py` — a relational schema (18 tables) plus a randomized seed
  generator `generate_sample_data`, the static `insert_kpi_catalog`, the
  destructive `recreate_schema`, and the `main` entry point.
* `main.py` — the FastAPI chat service: module-level startup check of the
  `OPENAI_API_KEY` environment variable, the in-memory session `store`,
  `get_session_history`, and the `chat` / `clear_history` / `get_history`
  endpoint handlers.
* `db-agent.py` — only its module-level API-key startup check is relevant
  to the claims; the agent loop itself is LLM-driven I/O.

Randomness (`random.choice`, `random.sample`, `random.randint`) is modelled
by an explicit oracle structure `Rand` of integer streams; `random.choice`
on a non-empty list is `choice`, which indexes the list by the oracle value
modulo the length.  Faker-generated descriptive columns (names, dates,
amounts, enumerated status strings) are omitted from the row types: no claim
mentions them and they do not feed back into key assignment.  Primary keys
follow MySQL autoincrement on freshly created tables: row `i` of a table
gets id `i + 1`.  Surrogate keys of leaf tables that no foreign key points
at are likewise omitted.
-/

namespace KPIBackend

/-! Section: decimal rendering (Python `str` of a non-negative int, used by f-strings) -/

/-- Little-endian decimal digits of `n`; always at least one digit,
mirroring Python `str` which renders `0` as `"0"`. -/
def decimalDigits (n : Nat) : List Nat :=
  if h : n < 10 then [n]
  else n % 10 :: decimalDigits (n / 10)
decreasing_by exact Nat.div_lt_self (by omega) (by omega)

/-- Value of a little-endian digit list. -/
def digitsVal : List Nat → Nat
  | [] => 0
  | d :: ds => d + 10 * digitsVal ds

/-- Python `str(n)` for a natural number, as `pyStr n`: most-significant
digit first, rendered with the standard digit characters. -/
def pyStr (n : Nat) : String :=
  String.mk (((decimalDigits n).map Nat.digitChar).reverse)

/-! Section: row types (`database.py` ORM models, key columns) -/

structure Company where
  company_id : Nat
deriving Repr, DecidableEq

structure CompanyRevenue where
  company_id : Nat
deriving Repr, DecidableEq

structure Client where
  client_id : Nat
  company_id : Nat
deriving Repr, DecidableEq

structure ProjectCategory where
  category_id : Nat
  name : String
deriving Repr, DecidableEq

structure Project where
  project_id : Nat
  project_code : String
  name : String
  client_id : Nat
  company_id : Nat
  category_id : Nat
deriving Repr, DecidableEq

structure ProjectDetail where
  project_id : Nat
deriving Repr, DecidableEq

structure Employee where
  employee_id : Nat
  company_id : Nat
deriving Repr, DecidableEq

structure TeamMember where
  project_id : Nat
  employee_id : Nat
deriving Repr, DecidableEq

structure ProjectGoal where
  project_id : Nat
deriving Repr, DecidableEq

structure Milestone where
  project_id : Nat
  name : String
deriving Repr, DecidableEq

structure Defect where
  project_id : Nat
deriving Repr, DecidableEq

structure Issue where
  project_id : Nat
deriving Repr, DecidableEq

structure TimeEntry where
  project_id : Nat
  employee_id : Nat
deriving Repr, DecidableEq

structure ProjectCost where
  project_id : Nat
deriving Repr, DecidableEq

structure EmployeeExit where
  employee_id : Nat
deriving Repr, DecidableEq

structure HiringPipeline where
  position : String
deriving Repr, DecidableEq

structure TrainingAttendance where
  employee_id : Nat
deriving Repr, DecidableEq

structure KPICatalogEntry where
  kpi_name : String
  category : String
  role : String
deriving Repr, DecidableEq

/-- The database state: one list of rows per table, in insertion order. -/
structure Dataset where
  companies : List Company
  company_revenue : List CompanyRevenue
  clients : List Client
  project_categories : List ProjectCategory
  projects : List Project
  project_details : List ProjectDetail
  employees : List Employee
  team_members : List TeamMember
  project_goals : List ProjectGoal
  kpi_catalog : List KPICatalogEntry
  milestones : List Milestone
  defects : List Defect
  issues : List Issue
  time_entry : List TimeEntry
  project_cost : List ProjectCost
  employee_exit : List EmployeeExit
  hiring_pipeline : List HiringPipeline
  training_attendance : List TrainingAttendance
deriving Repr, DecidableEq

/-- The state right after `Base.metadata.create_all`: every table empty. -/
def emptyDataset : Dataset :=
  ⟨[], [], [], [], [], [], [], [], [], [], [], [], [], [], [], [], [], []⟩

/-- Keyword parameters of `generate_sample_data` (defaults 50, 100, 100,
1500, 1000, 1000 in the source). -/
structure GenParams where
  num_companies : Nat
  num_clients_per_company : Nat
  num_projects : Nat
  num_employees : Nat
  num_revenue_months : Nat
  num_time_entries : Nat
deriving Repr, DecidableEq

/-- Oracle for the `random` module: each field is an arbitrary stream of
naturals consumed at one call site of `random.choice` / `random.sample` /
`random.randint`.  `choice` reduces a raw value modulo the list length. -/
structure Rand where
  projClient : Nat → Nat
  projCompany : Nat → Nat
  projCategory : Nat → Nat
  empCompany : Nat → Nat
  teamPick : Nat → Nat → Nat
  goalCount : Nat → Nat
  defectCount : Nat → Nat
  issueCount : Nat → Nat
  costCount : Nat → Nat
  exitPick : Nat → Nat
  hiringPos : Nat → Nat

/-- Model of `random.choice l` for a non-empty `l`: some element of `l`, selected by
the oracle value `r`.  The default `d` is only reached when `l = []`, where
the Python call would raise. -/
def choice {α : Type} (l : List α) (d : α) (r : Nat) : α :=
  l.getD (r % l.length) d

theorem choice_mem {α : Type} (l : List α) (d : α) (r : Nat) (h : l ≠ []) :
    choice l d r ∈ l := by
  have hlen : r % l.length < l.length := Nat.mod_lt _ (List.length_pos.mpr h)
  rw [choice, List.getD_eq_getElem l d hlen]
  exact List.getElem_mem hlen

/-! Section: the function `generate_sample_data`, block by block -/

/-- Companies block: `num_companies` rows, autoincrement ids `1..`. -/
def genCompanies (P : GenParams) : List Company :=
  (List.range P.num_companies).map (fun i => Company.mk (i + 1))

/-- Company revenue block: for each company, `num_revenue_months` rows
carrying the id of that company. -/
def genCompanyRevenue (P : GenParams) : List CompanyRevenue :=
  (genCompanies P).flatMap (fun c =>
    (List.range P.num_revenue_months).map (fun _ => CompanyRevenue.mk c.company_id))

/-- Clients block: `num_clients_per_company` rows per company, ids
sequential across the whole table, `company_id` from the enclosing loop. -/
def genClients (P : GenParams) : List Client :=
  (List.range P.num_companies).flatMap (fun ci =>
    (List.range P.num_clients_per_company).map (fun k =>
      Client.mk (ci * P.num_clients_per_company + k + 1) (ci + 1)))

/-- Project categories block: the fixed `category_list`. -/
def genCategories : List ProjectCategory :=
  [ProjectCategory.mk 1 "Web", ProjectCategory.mk 2 "Mobile",
   ProjectCategory.mk 3 "AI/ML", ProjectCategory.mk 4 "Cloud"]

/-- Projects block: row `i` has code `f"PRJ{i+1000}"`, name `f"Project_{i}"`,
and `client_id` / `company_id` / `category_id` drawn by `random.choice`
from the previously generated lists. -/
def genProjects (P : GenParams) (r : Rand) : List Project :=
  (List.range P.num_projects).map (fun i =>
    Project.mk (i + 1) ("PRJ" ++ pyStr (i + 1000)) ("Project_" ++ pyStr i)
      (choice (genClients P) (Client.mk 0 0) (r.projClient i)).client_id
      (choice (genCompanies P) (Company.mk 0) (r.projCompany i)).company_id
      (choice genCategories (ProjectCategory.mk 0 "") (r.projCategory i)).category_id)

/-- Project details block: one row per project. -/
def genProjectDetails (P : GenParams) (r : Rand) : List ProjectDetail :=
  (genProjects P r).map (fun p => ProjectDetail.mk p.project_id)

/-- Employees block: `num_employees` rows, each with a randomly chosen
company. -/
def genEmployees (P : GenParams) (r : Rand) : List Employee :=
  (List.range P.num_employees).map (fun i =>
    Employee.mk (i + 1) (choice (genCompanies P) (Company.mk 0) (r.empCompany i)).company_id)

/-- Team members block: per project, `random.sample(employees, min(5, len))`
members.  The sample is modelled as `min 5 len` oracle-driven choices from
`employees` (distinctness of the sample is not needed by any claim). -/
def genTeamMembers (P : GenParams) (r : Rand) : List TeamMember :=
  (genProjects P r).flatMap (fun p =>
    (List.range (min 5 (genEmployees P r).length)).map (fun s =>
      TeamMember.mk p.project_id
        (choice (genEmployees P r) (Employee.mk 0 0) (r.teamPick p.project_id s)).employee_id))

/-- Project goals block: `random.randint(2, 5)` rows per project. -/
def genProjectGoals (P : GenParams) (r : Rand) : List ProjectGoal :=
  (genProjects P r).flatMap (fun p =>
    (List.range (2 + r.goalCount p.project_id % 4)).map (fun _ => ProjectGoal.mk p.project_id))

/-- Milestones block: exactly 2 per project, named after the project. -/
def genMilestones (P : GenParams) (r : Rand) : List Milestone :=
  (genProjects P r).flatMap (fun p =>
    (List.range 2).map (fun mIdx =>
      Milestone.mk p.project_id (p.name ++ " - Milestone " ++ pyStr (mIdx + 1))))

/-- Defects block: `random.randint(0, 3)` rows per project. -/
def genDefects (P : GenParams) (r : Rand) : List Defect :=
  (genProjects P r).flatMap (fun p =>
    (List.range (r.defectCount p.project_id % 4)).map (fun _ => Defect.mk p.project_id))

/-- Issues block: `random.randint(0, 2)` rows per project. -/
def genIssues (P : GenParams) (r : Rand) : List Issue :=
  (genProjects P r).flatMap (fun p =>
    (List.range (r.issueCount p.project_id % 3)).map (fun _ => Issue.mk p.project_id))

/-- Time entries block: entry `i` takes `projects[i % len(projects)]` and
`employees[i % len(employees)]`. -/
def genTimeEntries (P : GenParams) (r : Rand) : List TimeEntry :=
  (List.range P.num_time_entries).map (fun i =>
    TimeEntry.mk
      ((genProjects P r).getD (i % (genProjects P r).length) (Project.mk 0 "" "" 0 0 0)).project_id
      ((genEmployees P r).getD (i % (genEmployees P r).length) (Employee.mk 0 0)).employee_id)

/-- Project cost block: `random.randint(1, 3)` rows per project. -/
def genProjectCosts (P : GenParams) (r : Rand) : List ProjectCost :=
  (genProjects P r).flatMap (fun p =>
    (List.range (1 + r.costCount p.project_id % 3)).map (fun _ => ProjectCost.mk p.project_id))

/-- Employee exits block: `random.sample(employees, max(1, int(n * 0.05)))`,
modelled as oracle-driven choices from `employees`. -/
def genEmployeeExits (P : GenParams) (r : Rand) : List EmployeeExit :=
  (List.range (max 1 (P.num_employees * 5 / 100))).map (fun s =>
    EmployeeExit.mk (choice (genEmployees P r) (Employee.mk 0 0) (r.exitPick s)).employee_id)

/-- Hiring pipeline block: 12 rows, position drawn from a fixed list; no
foreign keys. -/
def genHiringPipeline (r : Rand) : List HiringPipeline :=
  (List.range 12).map (fun i =>
    HiringPipeline.mk (choice
      ["Software Engineer", "QA Engineer", "Project Manager", "Data Analyst"]
      "" (r.hiringPos i)))

/-- Training attendance block: `for idx, emp in enumerate(employees)`, one
row whenever `idx % 3 == 0`. -/
def genTrainingAttendance (P : GenParams) (r : Rand) : List TrainingAttendance :=
  (List.range P.num_employees).filterMap (fun idx =>
    if idx % 3 == 0 then
      some (TrainingAttendance.mk ((genEmployees P r).getD idx (Employee.mk 0 0)).employee_id)
    else none)

/-- `generate_sample_data(session, ...)`: inserts every block into the
database of the session, in source order.  Ids are autoincrement over the
freshly created (empty) tables produced by `recreate_schema`. -/
def generate_sample_data (P : GenParams) (r : Rand) (db : Dataset) : Dataset :=
  { db with
    companies := db.companies ++ genCompanies P
    company_revenue := db.company_revenue ++ genCompanyRevenue P
    clients := db.clients ++ genClients P
    project_categories := db.project_categories ++ genCategories
    projects := db.projects ++ genProjects P r
    project_details := db.project_details ++ genProjectDetails P r
    employees := db.employees ++ genEmployees P r
    team_members := db.team_members ++ genTeamMembers P r
    project_goals := db.project_goals ++ genProjectGoals P r
    milestones := db.milestones ++ genMilestones P r
    defects := db.defects ++ genDefects P r
    issues := db.issues ++ genIssues P r
    time_entry := db.time_entry ++ genTimeEntries P r
    project_cost := db.project_cost ++ genProjectCosts P r
    employee_exit := db.employee_exit ++ genEmployeeExits P r
    hiring_pipeline := db.hiring_pipeline ++ genHiringPipeline r
    training_attendance := db.training_attendance ++ genTrainingAttendance P r }

/-- The seven static KPI catalog rows of `insert_kpi_catalog` (name,
category, role columns; the formula text carries no foreign key). -/
def kpiCatalogRows : List KPICatalogEntry :=
  [⟨"Total Revenue", "Company", "HR Manager"⟩,
   ⟨"Revenue Growth Rate", "Company", "HR Manager"⟩,
   ⟨"Revenue per Client", "Company", "HR Manager"⟩,
   ⟨"On-time Delivery Rate", "Project", "Project Manager"⟩,
   ⟨"Goal Completion Rate", "Project", "Project Manager"⟩,
   ⟨"Average Time per Project (hrs)", "Project", "Delivery Manager"⟩,
   ⟨"Defects per Project", "Project", "Delivery Manager"⟩]

/-- `insert_kpi_catalog(session)`: appends the static catalog rows. -/
def insert_kpi_catalog (db : Dataset) : Dataset :=
  { db with kpi_catalog := db.kpi_catalog ++ kpiCatalogRows }

/-- `recreate_schema()`: `drop_all` then `create_all` — whatever the prior
state, every table is empty afterwards. -/
def recreate_schema (_db : Dataset) : Dataset :=
  emptyDataset

/-- `main()`: recreate the schema, then seed, then insert the catalog.
The record `defaultParams` holds the keyword defaults of the source. -/
def defaultParams : GenParams :=
  ⟨50, 100, 100, 1500, 1000, 1000⟩

def pymain (P : GenParams) (r : Rand) (db : Dataset) : Dataset :=
  insert_kpi_catalog (generate_sample_data P r (recreate_schema db))

/-! Section: foreign-key resolution -/

def companyIds (d : Dataset) : List Nat := d.companies.map Company.company_id

def clientIds (d : Dataset) : List Nat := d.clients.map Client.client_id

def categoryIds (d : Dataset) : List Nat := d.project_categories.map ProjectCategory.category_id

def projectIds (d : Dataset) : List Nat := d.projects.map Project.project_id

def employeeIds (d : Dataset) : List Nat := d.employees.map Employee.employee_id

/-- Every foreign-key column of every child table refers to the primary key
of some row present in the parent table (all FK columns of the schema). -/
def foreignKeysResolve (d : Dataset) : Prop :=
  (∀ x ∈ d.company_revenue, x.company_id ∈ companyIds d) ∧
  (∀ x ∈ d.clients, x.company_id ∈ companyIds d) ∧
  (∀ x ∈ d.employees, x.company_id ∈ companyIds d) ∧
  (∀ x ∈ d.projects,
    x.client_id ∈ clientIds d ∧ x.company_id ∈ companyIds d ∧ x.category_id ∈ categoryIds d) ∧
  (∀ x ∈ d.project_details, x.project_id ∈ projectIds d) ∧
  (∀ x ∈ d.project_goals, x.project_id ∈ projectIds d) ∧
  (∀ x ∈ d.team_members, x.project_id ∈ projectIds d ∧ x.employee_id ∈ employeeIds d) ∧
  (∀ x ∈ d.milestones, x.project_id ∈ projectIds d) ∧
  (∀ x ∈ d.defects, x.project_id ∈ projectIds d) ∧
  (∀ x ∈ d.issues, x.project_id ∈ projectIds d) ∧
  (∀ x ∈ d.time_entry, x.project_id ∈ projectIds d ∧ x.employee_id ∈ employeeIds d) ∧
  (∀ x ∈ d.project_cost, x.project_id ∈ projectIds d) ∧
  (∀ x ∈ d.employee_exit, x.employee_id ∈ employeeIds d) ∧
  (∀ x ∈ d.training_attendance, x.employee_id ∈ employeeIds d)

theorem genCompanies_length (P : GenParams) :
    (genCompanies P).length = P.num_companies := by
  simp [genCompanies]

theorem genCompanies_ne_nil (P : GenParams) (hc : 0 < P.num_companies) :
    genCompanies P ≠ [] := by
  have := genCompanies_length P
  intro h
  rw [h] at this
  simp at this
  omega

theorem genClients_ne_nil (P : GenParams) (hc : 0 < P.num_companies)
    (hcl : 0 < P.num_clients_per_company) : genClients P ≠ [] := by
  apply List.ne_nil_of_mem (a := Client.mk 1 1)
  simp only [genClients, List.mem_flatMap, List.mem_map, List.mem_range]
  exact ⟨0, hc, 0, hcl, by simp⟩

theorem genProjects_length (P : GenParams) (r : Rand) :
    (genProjects P r).length = P.num_projects := by
  simp [genProjects]

theorem genEmployees_length (P : GenParams) (r : Rand) :
    (genEmployees P r).length = P.num_employees := by
  simp [genEmployees]

theorem genEmployees_ne_nil (P : GenParams) (r : Rand) (he : 0 < P.num_employees) :
    genEmployees P r ≠ [] := by
  have := genEmployees_length P r
  intro h
  rw [h] at this
  simp at this
  omega

theorem mem_companyIds_of_mem (P : GenParams) (c : Company) (hc : c ∈ genCompanies P) :
    c.company_id ∈ (genCompanies P).map Company.company_id :=
  List.mem_map_of_mem _ hc

theorem mem_projectIds_of_mem (P : GenParams) (r : Rand) (p : Project)
    (hp : p ∈ genProjects P r) :
    p.project_id ∈ (genProjects P r).map Project.project_id :=
  List.mem_map_of_mem _ hp

theorem mem_employeeIds_of_mem (P : GenParams) (r : Rand) (e : Employee)
    (he : e ∈ genEmployees P r) :
    e.employee_id ∈ (genEmployees P r).map Employee.employee_id :=
  List.mem_map_of_mem _ he

theorem genClients_company_fk (P : GenParams) (x : Client) (hx : x ∈ genClients P) :
    x.company_id ∈ (genCompanies P).map Company.company_id := by
  simp only [genClients, List.mem_flatMap, List.mem_map, List.mem_range] at hx
  obtain ⟨ci, hci, k, hk, rfl⟩ := hx
  simp only [genCompanies, List.map_map, List.mem_map, List.mem_range]
  exact ⟨ci, hci, rfl⟩

/-! Section: injectivity of the decimal rendering (for project-code uniqueness) -/

theorem digitsVal_decimalDigits (n : Nat) : digitsVal (decimalDigits n) = n := by
  induction n using Nat.strong_induction_on with
  | _ n ih =>
    rw [decimalDigits]
    split
    · simp [digitsVal]
    · rename_i h
      rw [digitsVal, ih (n / 10) (Nat.div_lt_self (by omega) (by omega))]
      omega

theorem decimalDigits_lt (n : Nat) : ∀ d ∈ decimalDigits n, d < 10 := by
  induction n using Nat.strong_induction_on with
  | _ n ih =>
    rw [decimalDigits]
    split
    · rename_i h
      intro d hd
      simp only [List.mem_singleton] at hd
      omega
    · rename_i h
      intro d hd
      simp only [List.mem_cons] at hd
      rcases hd with h1 | h2
      · omega
      · exact ih (n / 10) (Nat.div_lt_self (by omega) (by omega)) d h2

theorem digitChar_inj_lt :
    ∀ d < 10, ∀ e < 10, Nat.digitChar d = Nat.digitChar e → d = e := by decide

theorem map_digitChar_inj : ∀ (l1 l2 : List Nat), (∀ d ∈ l1, d < 10) → (∀ d ∈ l2, d < 10) →
    l1.map Nat.digitChar = l2.map Nat.digitChar → l1 = l2
  | [], [], _, _, _ => rfl
  | [], _ :: _, _, _, h => by simp at h
  | _ :: _, [], _, _, h => by simp at h
  | a :: l1, b :: l2, ha, hb, h => by
    simp only [List.map_cons, List.cons.injEq] at h
    have hab : a = b := digitChar_inj_lt a (ha a (by simp)) b (hb b (by simp)) h.1
    have htl : l1 = l2 :=
      map_digitChar_inj l1 l2 (fun d hd => ha d (by simp [hd])) (fun d hd => hb d (by simp [hd])) h.2
    rw [hab, htl]

theorem pyStr_inj {m n : Nat} (h : pyStr m = pyStr n) : m = n := by
  have hdata : ((decimalDigits m).map Nat.digitChar).reverse =
      ((decimalDigits n).map Nat.digitChar).reverse := congrArg String.data h
  have hmap := List.reverse_injective hdata
  have hdig := map_digitChar_inj _ _ (decimalDigits_lt m) (decimalDigits_lt n) hmap
  have hval := congrArg digitsVal hdig
  rwa [digitsVal_decimalDigits, digitsVal_decimalDigits] at hval

theorem project_code_inj (i j : Nat)
    (h : "PRJ" ++ pyStr (i + 1000) = "PRJ" ++ pyStr (j + 1000)) : i = j := by
  have hdata := congrArg String.data h
  rw [String.data_append, String.data_append] at hdata
  have hs : pyStr (i + 1000) = pyStr (j + 1000) :=
    String.ext (List.append_cancel_left hdata)
  have := pyStr_inj hs
  omega

/-! Section: claim theorems for the seed generator -/

/-- C1: every run of `generate_sample_data` followed by
`insert_kpi_catalog` (on the freshly created schema) yields a dataset in
which every foreign key of every generated child row refers to a parent row that
exists in the generated data set, for all FK columns of the schema.  The
positivity hypotheses mirror the fact that a Python run only completes when
`random.choice` and the modulo indexing are applied to non-empty lists;
the source defaults (50, 100, 100, 1500, 1000, 1000) satisfy them. -/
theorem seed_foreign_keys_resolve (P : GenParams) (r : Rand)
    (hc : 0 < P.num_companies) (hcl : 0 < P.num_clients_per_company)
    (hp : 0 < P.num_projects) (he : 0 < P.num_employees) :
    foreignKeysResolve (insert_kpi_catalog (generate_sample_data P r emptyDataset)) := by
  have hCne := genCompanies_ne_nil P hc
  have hClne := genClients_ne_nil P hc hcl
  have hEne := genEmployees_ne_nil P r he
  have hPne : genProjects P r ≠ [] := by
    have hl := genProjects_length P r
    intro hnil
    rw [hnil] at hl
    simp at hl
    omega
  refine ⟨?_, ?_, ?_, ?_, ?_, ?_, ?_, ?_, ?_, ?_, ?_, ?_, ?_, ?_⟩
  · -- CompanyRevenue.company_id → Company
    intro x hx
    show x.company_id ∈ (genCompanies P).map Company.company_id
    have hx : x ∈ genCompanyRevenue P := hx
    simp only [genCompanyRevenue, List.mem_flatMap, List.mem_map, List.mem_range] at hx
    obtain ⟨c, hcmem, m, hm, rfl⟩ := hx
    exact List.mem_map_of_mem _ hcmem
  · -- Client.company_id → Company
    intro x hx
    exact genClients_company_fk P x hx
  · -- Employee.company_id → Company
    intro x hx
    show x.company_id ∈ (genCompanies P).map Company.company_id
    have hx : x ∈ genEmployees P r := hx
    simp only [genEmployees, List.mem_map, List.mem_range] at hx
    obtain ⟨i, hi, rfl⟩ := hx
    exact List.mem_map_of_mem _ (choice_mem _ _ _ hCne)
  · -- Project: client_id / company_id / category_id
    intro x hx
    have hx : x ∈ genProjects P r := hx
    simp only [genProjects, List.mem_map, List.mem_range] at hx
    obtain ⟨i, hi, rfl⟩ := hx
    refine ⟨List.mem_map_of_mem _ (choice_mem _ _ _ hClne),
            List.mem_map_of_mem _ (choice_mem _ _ _ hCne),
            List.mem_map_of_mem _ (choice_mem _ _ _ ?_)⟩
    show genCategories ≠ []
    simp [genCategories]
  · -- ProjectDetail.project_id → Project
    intro x hx
    show x.project_id ∈ (genProjects P r).map Project.project_id
    have hx : x ∈ genProjectDetails P r := hx
    simp only [genProjectDetails, List.mem_map] at hx
    obtain ⟨p, hpmem, rfl⟩ := hx
    exact List.mem_map_of_mem _ hpmem
  · -- ProjectGoal.project_id → Project
    intro x hx
    show x.project_id ∈ (genProjects P r).map Project.project_id
    have hx : x ∈ genProjectGoals P r := hx
    simp only [genProjectGoals, List.mem_flatMap, List.mem_map, List.mem_range] at hx
    obtain ⟨p, hpmem, g, hg, rfl⟩ := hx
    exact List.mem_map_of_mem _ hpmem
  · -- TeamMember: project_id / employee_id
    intro x hx
    have hx : x ∈ genTeamMembers P r := hx
    simp only [genTeamMembers, List.mem_flatMap, List.mem_map, List.mem_range] at hx
    obtain ⟨p, hpmem, s, hs, rfl⟩ := hx
    exact ⟨List.mem_map_of_mem _ hpmem, List.mem_map_of_mem _ (choice_mem _ _ _ hEne)⟩
  · -- Milestone.project_id → Project
    intro x hx
    show x.project_id ∈ (genProjects P r).map Project.project_id
    have hx : x ∈ genMilestones P r := hx
    simp only [genMilestones, List.mem_flatMap, List.mem_map, List.mem_range] at hx
    obtain ⟨p, hpmem, m, hm, rfl⟩ := hx
    exact List.mem_map_of_mem _ hpmem
  · -- Defect.project_id → Project
    intro x hx
    show x.project_id ∈ (genProjects P r).map Project.project_id
    have hx : x ∈ genDefects P r := hx
    simp only [genDefects, List.mem_flatMap, List.mem_map, List.mem_range] at hx
    obtain ⟨p, hpmem, k, hk, rfl⟩ := hx
    exact List.mem_map_of_mem _ hpmem
  · -- Issue.project_id → Project
    intro x hx
    show x.project_id ∈ (genProjects P r).map Project.project_id
    have hx : x ∈ genIssues P r := hx
    simp only [genIssues, List.mem_flatMap, List.mem_map, List.mem_range] at hx
    obtain ⟨p, hpmem, k, hk, rfl⟩ := hx
    exact List.mem_map_of_mem _ hpmem
  · -- TimeEntry: project_id / employee_id
    intro x hx
    have hx : x ∈ genTimeEntries P r := hx
    simp only [genTimeEntries, List.mem_map, List.mem_range] at hx
    obtain ⟨i, hi, rfl⟩ := hx
    exact ⟨List.mem_map_of_mem _ (choice_mem _ _ i hPne),
           List.mem_map_of_mem _ (choice_mem _ _ i hEne)⟩
  · -- ProjectCost.project_id → Project
    intro x hx
    show x.project_id ∈ (genProjects P r).map Project.project_id
    have hx : x ∈ genProjectCosts P r := hx
    simp only [genProjectCosts, List.mem_flatMap, List.mem_map, List.mem_range] at hx
    obtain ⟨p, hpmem, k, hk, rfl⟩ := hx
    exact List.mem_map_of_mem _ hpmem
  · -- EmployeeExit.employee_id → Employee
    intro x hx
    show x.employee_id ∈ (genEmployees P r).map Employee.employee_id
    have hx : x ∈ genEmployeeExits P r := hx
    simp only [genEmployeeExits, List.mem_map, List.mem_range] at hx
    obtain ⟨s, hs, rfl⟩ := hx
    exact List.mem_map_of_mem _ (choice_mem _ _ _ hEne)
  · -- TrainingAttendance.employee_id → Employee
    intro x hx
    show x.employee_id ∈ (genEmployees P r).map Employee.employee_id
    have hx : x ∈ genTrainingAttendance P r := hx
    simp only [genTrainingAttendance, List.mem_filterMap, List.mem_range] at hx
    obtain ⟨idx, hidx, hif⟩ := hx
    split at hif
    · cases hif
      have hlt : idx < (genEmployees P r).length := by
        rw [genEmployees_length]
        exact hidx
      rw [List.getD_eq_getElem _ _ hlt]
      exact List.mem_map_of_mem _ (List.getElem_mem hlt)
    · cases hif

/-- A concrete run used by witness theorems: every count 1, the randomness
oracle constantly 0. -/
def witnessParams : GenParams := ⟨1, 1, 1, 1, 1, 1⟩

def witnessRand : Rand :=
  ⟨fun _ => 0, fun _ => 0, fun _ => 0, fun _ => 0, fun _ _ => 0,
   fun _ => 0, fun _ => 0, fun _ => 0, fun _ => 0, fun _ => 0, fun _ => 0⟩

/-- C1 witness: the generator invariant instantiated at a concrete run. -/
theorem seed_foreign_keys_resolve_witness :
    foreignKeysResolve (insert_kpi_catalog (generate_sample_data witnessParams witnessRand emptyDataset)) :=
  seed_foreign_keys_resolve witnessParams witnessRand
    (by decide) (by decide) (by decide) (by decide)

/-- C2: for every run of the seed generator with any `num_projects`, the
`project_code` values of the generated Project rows are pairwise distinct:
row `i` gets `"PRJ" ++ str(i + 1000)` and these differ for `i ≠ j`. -/
theorem generated_project_codes_distinct (P : GenParams) (r : Rand) :
    ((insert_kpi_catalog (generate_sample_data P r emptyDataset)).projects.map
      Project.project_code).Pairwise (fun a b => a ≠ b) := by
  show ((genProjects P r).map Project.project_code).Pairwise (fun a b => a ≠ b)
  rw [genProjects, List.map_map]
  exact (List.pairwise_lt_range P.num_projects).map _
    (fun a b hab heq => absurd (project_code_inj a b heq) (Nat.ne_of_lt hab))

/-- C3: `main` drops and rebuilds every table before inserting: after
`recreate_schema` each table is empty whatever the prior state, the result
of `main` is independent of the prior database state, and running `main`
twice leaves exactly the rows of one run (the result of seeding the
empty database). -/
theorem main_is_full_reset (P : GenParams) (r : Rand) :
    (∀ db : Dataset, recreate_schema db = emptyDataset) ∧
    (∀ db : Dataset, pymain P r db = pymain P r emptyDataset) ∧
    (∀ db : Dataset, ∀ r2 : Rand, ∀ P2 : GenParams,
      pymain P2 r2 (pymain P r db) = pymain P2 r2 emptyDataset) :=
  ⟨fun _ => rfl, fun _ => rfl, fun _ _ _ => rfl⟩

/-! Section: the chat service of main.py -/

/-- LangChain message objects held in `InMemoryChatMessageHistory`:
the service only ever appends `HumanMessage` (the user input) and
`AIMessage` (the model reply). -/
inductive Message where
  | HumanMessage : String → Message
  | AIMessage : String → Message
deriving Repr, DecidableEq

/-- Python `msg.__class__.__name__`, as used by `get_history`. -/
def msgTypeName : Message → String
  | Message.HumanMessage _ => "HumanMessage"
  | Message.AIMessage _ => "AIMessage"

/-- Python `msg.content`. -/
def msgContent : Message → String
  | Message.HumanMessage c => c
  | Message.AIMessage c => c

/-- The module-level `store: Dict[str, InMemoryChatMessageHistory]`,
as a partial map from session id to the message list of that session. -/
def Store : Type := String → Option (List Message)

def emptyStore : Store := fun _ => none

/-- Assigning `store[sid] = h` (or mutating the history object held
there, which the dictionary still maps `sid` to). -/
def updateStore (store : Store) (sid : String) (h : List Message) : Store :=
  fun s => if s = sid then some h else store s

/-- The helper `get_session_history`: creates an empty
`InMemoryChatMessageHistory` for an unknown session id, then returns the
history of the session together with the (possibly extended) store. -/
def get_session_history (store : Store) (sid : String) : List Message × Store :=
  match store sid with
  | some h => (h, store)
  | none => ([], updateStore store sid [])

structure ChatRequest where
  session_id : String
  message : String
deriving Repr, DecidableEq

structure ChatResponse where
  reply : String
deriving Repr, DecidableEq

/-- The inner `prompt | llm` runnable invoked by
`chain_with_history.invoke` on the session history and the new input.
`Except.ok reply` is a successful `AIMessage` with content `reply`
(`ChatOpenAI` always returns a content-bearing message, so the
`hasattr(response, "content")` branch of the handler applies);
`Except.error e` models any raised exception whose `str(e)` is `e`. -/
def ChatChain : Type := List Message → String → Except String String

/-- The `POST /chat` handler.  `RunnableWithMessageHistory` first obtains
the session history (creating the entry for an unknown session), invokes
the chain, and on success appends the human input and the AI reply to the
history.  The except-branch of the handler turns a raised exception into a
normal `ChatResponse` with reply `"Error: " + str(e)`. -/
def chat (chain : ChatChain) (store : Store) (req : ChatRequest) : ChatResponse × Store :=
  match chain (get_session_history store req.session_id).1 req.message with
  | Except.ok reply =>
      (ChatResponse.mk reply,
       updateStore (get_session_history store req.session_id).2 req.session_id
         ((get_session_history store req.session_id).1 ++
          [Message.HumanMessage req.message, Message.AIMessage reply]))
  | Except.error e => (ChatResponse.mk ("Error: " ++ e), (get_session_history store req.session_id).2)

/-- JSON body shape of the `DELETE /chat/{session_id}` handler. -/
structure MessageResponse where
  message : String
deriving Repr, DecidableEq

/-- The `DELETE /chat/{session_id}` handler `clear_history`: calls
`store[session_id].clear()` when the session exists (the key stays in the
dictionary, now mapping to an empty history), otherwise reports
`"Session not found"` and leaves the store untouched. -/
def clear_history (store : Store) (sid : String) : MessageResponse × Store :=
  match store sid with
  | some _ =>
      (MessageResponse.mk ("History cleared for session " ++ sid), updateStore store sid [])
  | none => (MessageResponse.mk ("Session not found"), store)

/-- JSON body shapes of the `GET /chat/{session_id}/history` handler:
`found sid count msgs` is the `{session_id, message_count, messages}`
dictionary (each message rendered as its class name and content), and
`notFound msg msgs` is the `{"message": ..., "messages": []}` dictionary. -/
inductive HistoryResponse where
  | found : String → Nat → List (String × String) → HistoryResponse
  | notFound : String → List (String × String) → HistoryResponse
deriving Repr, DecidableEq

/-- The `GET /chat/{session_id}/history` handler `get_history`.  It only
reads the store; the returned store component records that (frame). -/
def get_history (store : Store) (sid : String) : HistoryResponse × Store :=
  match store sid with
  | some msgs =>
      (HistoryResponse.found sid msgs.length
        (msgs.map (fun m => (msgTypeName m, msgContent m))), store)
  | none => (HistoryResponse.notFound ("Session not found") [], store)

/-! Section: module-level startup of main.py and db-agent.py -/

/-- Python truthiness test `not api_key` for `os.getenv` output: true for
a missing variable (`None`) and for the empty string. -/
def missingKey : Option String → Bool
  | none => true
  | some s => decide (s = "")

/-- Outcome of importing the module: `valueError msg` is the
`raise ValueError(msg)` at the top of the file, reached before the LLM,
the FastAPI app, any endpoint, or the agent is created; `started key` is
the module fully initialized with the given API key. -/
inductive StartupResult where
  | valueError : String → StartupResult
  | started : String → StartupResult
deriving Repr, DecidableEq

/-- Module initialization of `main.py` (lines 19-21): read
`OPENAI_API_KEY`, raise `ValueError` when falsy, otherwise proceed to
build the llm, the chain, the store and the endpoints with that key. -/
def main_module_init (env : Option String) : StartupResult :=
  if missingKey env then
    StartupResult.valueError ("OPENAI_API_KEY not found in environment variables")
  else StartupResult.started (env.getD "")

/-- Module initialization of `db-agent.py` (lines 20-22): the identical
check, reached before the LLM, the toolkit or the agent is created. -/
def db_agent_module_init (env : Option String) : StartupResult :=
  if missingKey env then
    StartupResult.valueError ("OPENAI_API_KEY not found in environment variables")
  else StartupResult.started (env.getD "")

/-! Section: claim theorems for the chat service -/

/-- C4: whenever evaluating the chain raises an exception with text `e`,
the `POST /chat` handler returns a normal `ChatResponse` whose reply is
`"Error: "` followed by `e`; the handler is a total function into
`ChatResponse × Store`, so no exception or failure status propagates. -/
theorem chat_catches_exceptions (chain : ChatChain) (store : Store)
    (req : ChatRequest) (e : String)
    (hfail : chain (get_session_history store req.session_id).1 req.message = Except.error e) :
    (chat chain store req).1 = ChatResponse.mk ("Error: " ++ e) := by
  unfold chat
  rw [hfail]

def witnessFailChain : ChatChain := fun _ _ => Except.error ("boom")

/-- C4 witness: the error path at a concrete chain, store and request. -/
theorem chat_catches_exceptions_witness :
    (chat witnessFailChain emptyStore (ChatRequest.mk "s" "hi")).1 =
      ChatResponse.mk ("Error: " ++ "boom") :=
  chat_catches_exceptions witnessFailChain emptyStore (ChatRequest.mk "s" "hi") "boom" rfl

/-- C5: for a session id not present in the store,
`GET /chat/{session_id}/history` returns the not-found body (message
`"Session not found"` and an empty messages list) instead of raising,
while the `{session_id, message_count, messages}` success shape is
returned exactly for known sessions. -/
theorem get_history_unknown_session (store : Store) (sid : String) :
    (store sid = none →
      (get_history store sid).1 = HistoryResponse.notFound ("Session not found") []) ∧
    (∀ msgs : List Message, store sid = some msgs →
      (get_history store sid).1 = HistoryResponse.found sid msgs.length
        (msgs.map (fun m => (msgTypeName m, msgContent m)))) := by
  constructor
  · intro h
    unfold get_history
    rw [h]
  · intro msgs h
    unfold get_history
    rw [h]

/-- A concrete store used by witness theorems: one session, one message. -/
def witnessStore : Store :=
  fun s => if s = "s1" then some [Message.HumanMessage ("hello")] else none

/-- C5 witness: unknown and known session at a concrete store. -/
theorem get_history_unknown_session_witness :
    (get_history witnessStore "nope").1 = HistoryResponse.notFound ("Session not found") [] ∧
    (get_history witnessStore "s1").1 =
      HistoryResponse.found "s1" 1 [("HumanMessage", "hello")] :=
  ⟨(get_history_unknown_session witnessStore "nope").1 rfl,
   (get_history_unknown_session witnessStore "s1").2 [Message.HumanMessage ("hello")] rfl⟩

/-- C6: for a session present in the store, `DELETE /chat/{session_id}`
followed by `GET /chat/{session_id}/history` yields a response with an
empty messages list and message count zero, whatever the session held. -/
theorem clear_then_history_empty (store : Store) (sid : String)
    (msgs : List Message) (h : store sid = some msgs) :
    (get_history (clear_history store sid).2 sid).1 = HistoryResponse.found sid 0 [] := by
  have hclear : (clear_history store sid).2 = updateStore store sid [] := by
    unfold clear_history
    rw [h]
  unfold get_history
  rw [hclear]
  simp [updateStore]

/-- C6 witness: delete-then-history at a concrete store. -/
theorem clear_then_history_empty_witness :
    (get_history (clear_history witnessStore "s1").2 "s1").1 =
      HistoryResponse.found "s1" 0 [] :=
  clear_then_history_empty witnessStore "s1" [Message.HumanMessage ("hello")] rfl

/-- Equation for the success path of the `POST /chat` handler. -/
theorem chat_ok (chain : ChatChain) (store : Store) (req : ChatRequest) (reply : String)
    (h : chain (get_session_history store req.session_id).1 req.message = Except.ok reply) :
    chat chain store req =
      (ChatResponse.mk reply,
       updateStore (get_session_history store req.session_id).2 req.session_id
         ((get_session_history store req.session_id).1 ++
          [Message.HumanMessage req.message, Message.AIMessage reply])) := by
  unfold chat
  rw [h]

/-- Equation for `get_session_history` on a known session. -/
theorem get_session_history_of_some (store : Store) (sid : String)
    (msgs : List Message) (h : store sid = some msgs) :
    get_session_history store sid = (msgs, store) := by
  unfold get_session_history
  rw [h]

/-- Equation for `get_history` on a known session. -/
theorem get_history_of_some (store : Store) (sid : String)
    (msgs : List Message) (h : store sid = some msgs) :
    get_history store sid =
      (HistoryResponse.found sid msgs.length
        (msgs.map (fun m => (msgTypeName m, msgContent m))), store) := by
  unfold get_history
  rw [h]

/-- C7: posting `m1` then `m2` to the same session (both chain calls
succeeding) and then requesting history returns a messages list where the
human-typed entry for `m1` appears strictly before the one for `m2`. -/
theorem chat_history_preserves_order (chain : ChatChain) (store : Store)
    (sid m1 m2 r1 r2 : String)
    (h1 : chain (get_session_history store sid).1 m1 = Except.ok r1)
    (h2 : chain (get_session_history (chat chain store (ChatRequest.mk sid m1)).2 sid).1 m2
      = Except.ok r2) :
    ∃ msgs : List (String × String), ∃ i j : Nat,
      (get_history (chat chain (chat chain store (ChatRequest.mk sid m1)).2
        (ChatRequest.mk sid m2)).2 sid).1 = HistoryResponse.found sid msgs.length msgs ∧
      i < j ∧ msgs[i]? = some (("HumanMessage", m1)) ∧ msgs[j]? = some (("HumanMessage", m2)) := by
  have hchat1 := chat_ok chain store (ChatRequest.mk sid m1) r1 h1
  have hs1sid : (chat chain store (ChatRequest.mk sid m1)).2 sid =
      some ((get_session_history store sid).1 ++
        [Message.HumanMessage m1, Message.AIMessage r1]) := by
    rw [hchat1]
    simp [updateStore]
  have hgsh1 := get_session_history_of_some _ sid _ hs1sid
  have hchat2 := chat_ok chain (chat chain store (ChatRequest.mk sid m1)).2
    (ChatRequest.mk sid m2) r2 h2
  have hstore2sid : (chat chain (chat chain store (ChatRequest.mk sid m1)).2
      (ChatRequest.mk sid m2)).2 sid =
      some (((get_session_history store sid).1 ++
          [Message.HumanMessage m1, Message.AIMessage r1]) ++
         [Message.HumanMessage m2, Message.AIMessage r2]) := by
    rw [hchat2, hgsh1]
    simp [updateStore]
  have hgethist := get_history_of_some _ sid _ hstore2sid
  refine ⟨(((get_session_history store sid).1 ++
      [Message.HumanMessage m1, Message.AIMessage r1]) ++
      [Message.HumanMessage m2, Message.AIMessage r2]).map
        (fun m => (msgTypeName m, msgContent m)),
    (get_session_history store sid).1.length,
    (get_session_history store sid).1.length + 2, ?_, by omega, ?_, ?_⟩
  · rw [hgethist]
    simp [List.length_map]
  · rw [List.map_append, List.map_append, List.append_assoc]
    rw [List.getElem?_append_right (by simp)]
    simp [msgTypeName, msgContent]
  · rw [List.map_append, List.map_append, List.append_assoc]
    rw [List.getElem?_append_right (by simp)]
    simp [msgTypeName, msgContent]

def witnessOkChain : ChatChain := fun _ m => Except.ok ("echo " ++ m)

/-- C7 witness: two concrete posts to one session, then history. -/
theorem chat_history_preserves_order_witness :
    ∃ msgs : List (String × String), ∃ i j : Nat,
      (get_history (chat witnessOkChain (chat witnessOkChain emptyStore
        (ChatRequest.mk "s" "m1")).2 (ChatRequest.mk "s" "m2")).2 "s").1 =
        HistoryResponse.found "s" msgs.length msgs ∧
      i < j ∧ msgs[i]? = some (("HumanMessage", "m1")) ∧
      msgs[j]? = some (("HumanMessage", "m2")) :=
  chat_history_preserves_order witnessOkChain emptyStore "s" "m1" "m2"
    ("echo " ++ "m1") ("echo " ++ "m2") rfl rfl

/-- C9: the `GET /chat/{session_id}/history` handler never modifies the
session store, for every store state and session id (known or unknown);
in particular an unknown id does not get an entry created. -/
theorem get_history_does_not_modify_store (store : Store) (sid : String) :
    (get_history store sid).2 = store := by
  unfold get_history
  split <;> rfl

/-- C10: `DELETE /chat/{session_id}` affects at most the named session:
every other session id keeps its history, and when the named id is absent
the whole store is unchanged (no session is created by the delete). -/
theorem clear_history_frame (store : Store) (sid : String) :
    (∀ t : String, t ≠ sid → (clear_history store sid).2 t = store t) ∧
    (store sid = none → (clear_history store sid).2 = store) := by
  constructor
  · intro t ht
    unfold clear_history
    split
    · simp [updateStore, ht]
    · rfl
  · intro h
    unfold clear_history
    rw [h]

/-- C10 witness: the frame property at a concrete store and ids. -/
theorem clear_history_frame_witness :
    (clear_history witnessStore "s1").2 "other" = witnessStore "other" ∧
    (clear_history witnessStore "nope").2 = witnessStore :=
  ⟨(clear_history_frame witnessStore "s1").1 "other" (by decide),
   (clear_history_frame witnessStore "nope").2 rfl⟩

/-- C8: at startup of either service, module initialization raises
`ValueError` exactly when `OPENAI_API_KEY` is absent or empty, before any
endpoint or agent is created; with a non-empty key both modules start. -/
theorem startup_fails_fast (env : Option String) :
    ((env = none ∨ env = some "") →
      main_module_init env =
        StartupResult.valueError ("OPENAI_API_KEY not found in environment variables") ∧
      db_agent_module_init env =
        StartupResult.valueError ("OPENAI_API_KEY not found in environment variables")) ∧
    (∀ k : String, env = some k → k ≠ "" →
      main_module_init env = StartupResult.started k ∧
      db_agent_module_init env = StartupResult.started k) := by
  constructor
  · rintro (rfl | rfl) <;> exact ⟨rfl, rfl⟩
  · rintro k rfl hk
    have hmk : missingKey (some k) = false := by
      simp [missingKey, hk]
    constructor
    · unfold main_module_init
      rw [hmk]
      rfl
    · unfold db_agent_module_init
      rw [hmk]
      rfl

/-- C8 witness: missing, empty and present key at concrete inputs. -/
theorem startup_fails_fast_witness :
    (main_module_init none =
      StartupResult.valueError ("OPENAI_API_KEY not found in environment variables") ∧
     db_agent_module_init none =
      StartupResult.valueError ("OPENAI_API_KEY not found in environment variables")) ∧
    (main_module_init (some "") =
      StartupResult.valueError ("OPENAI_API_KEY not found in environment variables") ∧
     db_agent_module_init (some "") =
      StartupResult.valueError ("OPENAI_API_KEY not found in environment variables")) ∧
    (main_module_init (some "sk-test") = StartupResult.started "sk-test" ∧
     db_agent_module_init (some "sk-test") = StartupResult.started "sk-test") :=
  ⟨(startup_fails_fast none).1 (Or.inl rfl),
   (startup_fails_fast (some "")).1 (Or.inr rfl),
   (startup_fails_fast (some "sk-test")).2 "sk-test" rfl (by decide)⟩

end KPIBackend
